import Mathlib

/-!
# World Fairness Score — verification of the scoring pipeline

Shallow embedding of the score calculation code of the
`world-fairness-score` repository.  JavaScript numbers are modelled as
exact rationals (`ℚ`), and `Math.round` as `⌊x + 1/2⌋` (JavaScript rounds
halves toward positive infinity).  `calculate.ts` is embedded in the
`Calc` namespace and `generate.ts` in the `Gen` namespace; both scripts
carry their own configuration tables and their own variant of the
normalizer and aggregator.
-/

namespace Wfs

/-- JavaScript `Math.round`: nearest integer, halves toward `+∞`. -/
def jsRound (q : ℚ) : ℤ := ⌊q + 1/2⌋

/-- `SourceConfig` — static per-source configuration: the legitimate input
range `[min, max]` of the raw value and the invert flag (`generate.ts`
additionally stores a display name and URL, which the calculation never
reads). -/
structure SourceConfig where
  inputRange : ℚ × ℚ
  invert : Bool
deriving DecidableEq

/-- `RawDataPoint` — one observation, as stored in the keyed raw-data map of
`calculate.ts`.  The identity fields (`countryIso3`, `countryName`,
`sourceId`, `field`) are already encoded in the map key and are not read
again by the calculation, so only the payload fields are kept. -/
structure RawDataPoint where
  value : ℚ
  year : ℤ
  estimated : Bool
deriving DecidableEq

/-- One contributing-source record of a `DimensionScore` audit trail. -/
structure SourceEntry where
  sourceId : String
  rawValue : ℚ
  normalizedValue : ℚ
  weight : ℚ
  estimated : Bool
deriving DecidableEq

inductive Confidence where
  | high
  | medium
  | low
deriving DecidableEq

structure DimensionScore where
  score : ℚ
  sources : List SourceEntry
  confidence : Confidence
deriving DecidableEq

inductive Direction where
  | improving
  | declining
  | stable
deriving DecidableEq

structure Trend where
  direction : Direction
  change : ℤ
  yearsCompared : ℤ
deriving DecidableEq

/-- An entry of the `historicalScores` argument of `calculateTrend`. -/
structure HistoricalScore where
  year : ℤ
  score : ℚ
deriving DecidableEq

/-- One `(sourceId, weight, field?)` triple of a dimension mapping. -/
structure DimSource where
  sourceId : String
  weight : ℚ
  field : Option String := none
deriving DecidableEq

structure DimensionSourceMapping where
  dimension : String
  sources : List DimSource
deriving DecidableEq

/-- An example source configuration with a degenerate (`min = max`) input
range; no such entry occurs in either static configuration table. -/
def degenerateRange : SourceConfig :=
  { inputRange := (5, 5), invert := false }

end Wfs

namespace Calc

open Wfs

/-- `DIMENSION_WEIGHTS` of `calculate.ts`. -/
def DIMENSION_WEIGHTS : List (String × ℚ) :=
  [ ("democraticVoice", 0.15)
  , ("pressFreedom", 0.15)
  , ("justiceAccess", 0.15)
  , ("economicOpportunity", 0.10)
  , ("workplaceRights", 0.10)
  , ("healthcareAccess", 0.10)
  , ("housingSecurity", 0.10)
  , ("consumerProtection", 0.05)
  , ("governmentResponsiveness", 0.05)
  , ("socialInclusion", 0.05) ]

/-- `SOURCE_CONFIGS` of `calculate.ts`. -/
def SOURCE_CONFIGS : List (String × SourceConfig) :=
  [ ("freedom_house_political", { inputRange := (0, 40), invert := false })
  , ("vdem_electoral", { inputRange := (0, 1), invert := false })
  , ("eiu_democracy", { inputRange := (0, 10), invert := false })
  , ("rsf_press_freedom", { inputRange := (0, 100), invert := true })
  , ("vdem_media", { inputRange := (0, 1), invert := false })
  , ("wjp_rule_of_law", { inputRange := (0, 1), invert := false })
  , ("world_bank_gini", { inputRange := (20, 65), invert := true })
  , ("wef_social_mobility", { inputRange := (0, 100), invert := false })
  , ("ituc_global_rights", { inputRange := (1, 5.5), invert := true })
  , ("who_uhc", { inputRange := (0, 100), invert := false })
  , ("who_out_of_pocket", { inputRange := (0, 80), invert := true })
  , ("numbeo_property", { inputRange := (2, 50), invert := true })
  , ("wgi_voice", { inputRange := (-2.5, 2.5), invert := false })
  , ("wgi_effectiveness", { inputRange := (-2.5, 2.5), invert := false })
  , ("ti_cpi", { inputRange := (0, 100), invert := false })
  , ("undp_gii", { inputRange := (0, 0.8), invert := true })
  , ("spi_personal_rights", { inputRange := (0, 100), invert := false }) ]

/-- `DIMENSION_SOURCES` of `calculate.ts`. -/
def DIMENSION_SOURCES : List DimensionSourceMapping :=
  [ { dimension := "democraticVoice"
    , sources :=
      [ { sourceId := "freedom_house_political", weight := 0.4 }
      , { sourceId := "vdem_electoral", weight := 0.4 }
      , { sourceId := "eiu_democracy", weight := 0.2 } ] }
  , { dimension := "pressFreedom"
    , sources :=
      [ { sourceId := "rsf_press_freedom", weight := 0.5 }
      , { sourceId := "vdem_media", weight := 0.3 }
      , { sourceId := "freedom_house_political", weight := 0.2 } ] }
  , { dimension := "justiceAccess"
    , sources :=
      [ { sourceId := "wjp_rule_of_law", weight := 0.5, field := some "civil_justice" }
      , { sourceId := "wjp_rule_of_law", weight := 0.3, field := some "criminal_justice" }
      , { sourceId := "wgi_voice", weight := 0.2 } ] }
  , { dimension := "economicOpportunity"
    , sources :=
      [ { sourceId := "world_bank_gini", weight := 0.4 }
      , { sourceId := "wef_social_mobility", weight := 0.4 }
      , { sourceId := "wgi_effectiveness", weight := 0.2 } ] }
  , { dimension := "workplaceRights"
    , sources :=
      [ { sourceId := "ituc_global_rights", weight := 0.7 }
      , { sourceId := "wgi_voice", weight := 0.3 } ] }
  , { dimension := "healthcareAccess"
    , sources :=
      [ { sourceId := "who_uhc", weight := 0.6 }
      , { sourceId := "who_out_of_pocket", weight := 0.4 } ] }
  , { dimension := "housingSecurity"
    , sources :=
      [ { sourceId := "numbeo_property", weight := 0.5 }
      , { sourceId := "wgi_effectiveness", weight := 0.3 }
      , { sourceId := "spi_personal_rights", weight := 0.2 } ] }
  , { dimension := "consumerProtection"
    , sources :=
      [ { sourceId := "wjp_rule_of_law", weight := 0.5, field := some "civil_justice" }
      , { sourceId := "ti_cpi", weight := 0.3 }
      , { sourceId := "wgi_effectiveness", weight := 0.2 } ] }
  , { dimension := "governmentResponsiveness"
    , sources :=
      [ { sourceId := "wgi_voice", weight := 0.3 }
      , { sourceId := "wgi_effectiveness", weight := 0.3 }
      , { sourceId := "ti_cpi", weight := 0.4 } ] }
  , { dimension := "socialInclusion"
    , sources :=
      [ { sourceId := "undp_gii", weight := 0.5 }
      , { sourceId := "spi_personal_rights", weight := 0.5 } ] } ]

/-- `normalizeValue` of `calculate.ts`: clamp into the input range, rescale
to `[0, 1]`, invert if flagged, then scale to `0–100` rounded to one
decimal (`Math.round(normalized * 100 * 10) / 10`). -/
def normalizeValue (value : ℚ) (config : SourceConfig) : ℚ :=
  let mn := config.inputRange.1
  let mx := config.inputRange.2
  let clamped := max mn (min mx value)
  let normalized0 := (clamped - mn) / (mx - mn)
  let normalized := if config.invert then 1 - normalized0 else normalized0
  (jsRound (normalized * 100 * 10) : ℚ) / 10

/-- The raw-data map key `` `${countryIso3}_${sourceId}${field ? '_' + field : ''}` ``. -/
def sourceKey (countryIso3 sourceId : String) (field : Option String) : String :=
  countryIso3 ++ "_" ++ sourceId ++ (match field with
    | some f => "_" ++ f
    | none => "")

/-- Accumulator of the source loop in `calculateDimensionScore`. -/
structure AggState where
  sourceScores : List SourceEntry
  totalWeight : ℚ
  weightedSum : ℚ
  estimatedCount : ℕ
deriving DecidableEq

/-- One iteration of the source loop of `calculateDimensionScore`: look up
the data point for the source's key; when the point is absent, or the
source id has no entry in `SOURCE_CONFIGS`, leave the state unchanged,
otherwise normalize and accumulate. -/
def aggStep (countryIso3 : String) (rawData : String → Option RawDataPoint)
    (st : AggState) (source : DimSource) : AggState :=
  match rawData (sourceKey countryIso3 source.sourceId source.field) with
  | none => st
  | some dataPoint =>
    match SOURCE_CONFIGS.lookup source.sourceId with
    | none => st
    | some config =>
      let normalized := normalizeValue dataPoint.value config
      { sourceScores := st.sourceScores ++
          [ { sourceId := source.sourceId
            , rawValue := dataPoint.value
            , normalizedValue := normalized
            , weight := source.weight
            , estimated := dataPoint.estimated } ]
      , totalWeight := st.totalWeight + source.weight
      , weightedSum := st.weightedSum + normalized * source.weight
      , estimatedCount := st.estimatedCount + (if dataPoint.estimated then 1 else 0) }

/-- The full source loop of `calculateDimensionScore`. -/
def aggregateList (sources : List DimSource) (countryIso3 : String)
    (rawData : String → Option RawDataPoint) : AggState :=
  sources.foldl (aggStep countryIso3 rawData) ⟨[], 0, 0, 0⟩

/-- The confidence cascade at the end of `calculateDimensionScore`. -/
def confidenceOf (totalWeight : ℚ) (estimatedCount : ℕ) (numSources : ℕ) : Confidence :=
  if totalWeight < 0.5 ∨ (estimatedCount : ℚ) > (numSources : ℚ) / 2 then .low
  else if totalWeight < 0.8 ∨ 0 < estimatedCount then .medium
  else .high

/-- Assembling the `DimensionScore` record at the end of
`calculateDimensionScore`: the score is `Math.round((weightedSum /
totalWeight) * 10) / 10` when `totalWeight > 0` and `0` otherwise. -/
def mkDimensionScore (st : AggState) : DimensionScore :=
  { score := if st.totalWeight > 0
      then (jsRound (st.weightedSum / st.totalWeight * 10) : ℚ) / 10
      else 0
  , sources := st.sourceScores
  , confidence := confidenceOf st.totalWeight st.estimatedCount st.sourceScores.length }

/-- `calculateDimensionScore` of `calculate.ts`; throws on an unknown
dimension name, modelled as `Except.error`. -/
def calculateDimensionScore (dimension : String)
    (rawData : String → Option RawDataPoint) (countryIso3 : String) :
    Except String DimensionScore :=
  match DIMENSION_SOURCES.find? (fun d => d.dimension == dimension) with
  | none => .error ("Unknown dimension: " ++ dimension)
  | some mapping => .ok (mkDimensionScore (aggregateList mapping.sources countryIso3 rawData))

/-- `calculateFairnessScore` of `calculate.ts`: weighted mean of the
dimension scores, a key absent from `DIMENSION_WEIGHTS` getting weight 0. -/
def calculateFairnessScore (dimensions : List (String × DimensionScore)) : ℤ :=
  let st := dimensions.foldl (fun (acc : ℚ × ℚ) p =>
    let weight := (DIMENSION_WEIGHTS.lookup p.1).getD 0
    (acc.1 + p.2.score * weight, acc.2 + weight)) (0, 0)
  if st.2 > 0 then jsRound (st.1 / st.2) else 0

/-- One step of the maximal-year selection of `calculateTrend`: keep the
entry seen so far unless the next entry has a strictly greater year. -/
def maxStep (acc : Option HistoricalScore) (h : HistoricalScore) : Option HistoricalScore :=
  match acc with
  | none => some h
  | some b => if b.year < h.year then some h else acc

/-- The selection `.filter(h => h.year <= targetYear).sort((a, b) => b.year
- a.year)[0]` of `calculateTrend`: the first entry carrying the maximal
year (JavaScript array sort is stable, so among equal years the earliest
entry wins). -/
def maxByYear? (l : List HistoricalScore) : Option HistoricalScore :=
  l.foldl maxStep none

/-- `calculateTrend` of `calculate.ts`.  The script reads the current year
from the wall clock (`new Date().getFullYear()`); it is passed here as the
`currentYear` parameter. -/
def calculateTrend (currentYear : ℤ) (currentScore : ℚ)
    (historicalScores : List HistoricalScore) : Trend :=
  let targetYear := currentYear - 5
  match maxByYear? (historicalScores.filter (fun h => decide (h.year ≤ targetYear))) with
  | none => { direction := .stable, change := 0, yearsCompared := 0 }
  | some historicalScore =>
    let change := jsRound (currentScore - historicalScore.score)
    let cappedChange := max (-15) (min 15 change)
    let direction : Direction :=
      if cappedChange ≥ 3 then .improving
      else if cappedChange ≤ -3 then .declining
      else .stable
    { direction := direction
    , change := cappedChange
    , yearsCompared := currentYear - historicalScore.year }

/-- `Object.values(DIMENSION_WEIGHTS).reduce((a, b) => a + b, 0)`. -/
def weightSum (weights : List (String × ℚ)) : ℚ :=
  (weights.map Prod.snd).foldl (· + ·) 0

/-- The weight validation in `main`: passes unless
`Math.abs(weightSum - 1.0) > 0.001`. -/
def weightsValid (weights : List (String × ℚ)) : Bool :=
  decide (|weightSum weights - 1| ≤ 0.001)

/-- The whole pre-flight validation performed by `main` of `calculate.ts`
before any country is processed: it consists of the dimension-weight-sum
check only. -/
def startupValidationPasses : Bool :=
  weightsValid DIMENSION_WEIGHTS

/-- Replace the value of the first entry carrying the given key (used to
state the weight-mutation property). -/
def mutateWeight : List (String × ℚ) → String → ℚ → List (String × ℚ)
  | [], _, _ => []
  | (k0, w0) :: rest, key, v =>
    if k0 = key then (k0, v) :: rest else (k0, w0) :: mutateWeight rest key v

end Calc

namespace Gen

open Wfs

/-- `DIMENSION_WEIGHTS` of `generate.ts` (same ten values as in
`calculate.ts`). -/
def DIMENSION_WEIGHTS : List (String × ℚ) :=
  [ ("democraticVoice", 0.15)
  , ("pressFreedom", 0.15)
  , ("justiceAccess", 0.15)
  , ("economicOpportunity", 0.10)
  , ("workplaceRights", 0.10)
  , ("healthcareAccess", 0.10)
  , ("housingSecurity", 0.10)
  , ("consumerProtection", 0.05)
  , ("governmentResponsiveness", 0.05)
  , ("socialInclusion", 0.05) ]

/-- `SOURCE_CONFIGS` of `generate.ts` (the `name`/`url` display fields are
never read by the calculation and are omitted). -/
def SOURCE_CONFIGS : List (String × SourceConfig) :=
  [ ("freedom_house_political", { inputRange := (0, 40), invert := false })
  , ("freedom_house_civil", { inputRange := (0, 60), invert := false })
  , ("freedom_house_total", { inputRange := (0, 100), invert := false })
  , ("rsf_press_freedom", { inputRange := (0, 100), invert := true })
  , ("world_bank_gini", { inputRange := (20, 65), invert := true })
  , ("wgi_voice", { inputRange := (-2.5, 2.5), invert := false })
  , ("wgi_effectiveness", { inputRange := (-2.5, 2.5), invert := false })
  , ("wgi_corruption", { inputRange := (-2.5, 2.5), invert := false })
  , ("who_uhc_index", { inputRange := (0, 100), invert := false })
  , ("transparency_cpi", { inputRange := (0, 100), invert := false })
  , ("ituc_gri", { inputRange := (0, 100), invert := false }) ]

/-- One `(sourceId, weight)` pair of a `generate.ts` dimension mapping
(this script's mappings carry no `field`). -/
structure DimSource where
  sourceId : String
  weight : ℚ
deriving DecidableEq

structure DimensionMapping where
  dimension : String
  sources : List DimSource
deriving DecidableEq

/-- `DIMENSION_MAPPINGS` of `generate.ts`. -/
def DIMENSION_MAPPINGS : List DimensionMapping :=
  [ { dimension := "democraticVoice"
    , sources :=
      [ { sourceId := "freedom_house_political", weight := 0.5 }
      , { sourceId := "wgi_voice", weight := 0.5 } ] }
  , { dimension := "pressFreedom"
    , sources :=
      [ { sourceId := "rsf_press_freedom", weight := 0.7 }
      , { sourceId := "freedom_house_civil", weight := 0.3 } ] }
  , { dimension := "justiceAccess"
    , sources :=
      [ { sourceId := "wgi_corruption", weight := 0.4 }
      , { sourceId := "transparency_cpi", weight := 0.4 }
      , { sourceId := "wgi_voice", weight := 0.2 } ] }
  , { dimension := "economicOpportunity"
    , sources :=
      [ { sourceId := "world_bank_gini", weight := 0.6 }
      , { sourceId := "wgi_effectiveness", weight := 0.4 } ] }
  , { dimension := "workplaceRights"
    , sources :=
      [ { sourceId := "ituc_gri", weight := 0.6 }
      , { sourceId := "freedom_house_civil", weight := 0.2 }
      , { sourceId := "wgi_voice", weight := 0.2 } ] }
  , { dimension := "healthcareAccess"
    , sources :=
      [ { sourceId := "who_uhc_index", weight := 0.7 }
      , { sourceId := "wgi_effectiveness", weight := 0.3 } ] }
  , { dimension := "housingSecurity"
    , sources :=
      [ { sourceId := "wgi_effectiveness", weight := 0.4 }
      , { sourceId := "world_bank_gini", weight := 0.4 }
      , { sourceId := "transparency_cpi", weight := 0.2 } ] }
  , { dimension := "consumerProtection"
    , sources :=
      [ { sourceId := "transparency_cpi", weight := 0.5 }
      , { sourceId := "wgi_corruption", weight := 0.3 }
      , { sourceId := "wgi_effectiveness", weight := 0.2 } ] }
  , { dimension := "governmentResponsiveness"
    , sources :=
      [ { sourceId := "wgi_voice", weight := 0.35 }
      , { sourceId := "wgi_effectiveness", weight := 0.35 }
      , { sourceId := "transparency_cpi", weight := 0.3 } ] }
  , { dimension := "socialInclusion"
    , sources :=
      [ { sourceId := "freedom_house_civil", weight := 0.5 }
      , { sourceId := "wgi_voice", weight := 0.5 } ] } ]

/-- `normalizeValue` of `generate.ts`: same pipeline as the `calculate.ts`
variant but rounding to a whole number (`Math.round(normalized * 100)`). -/
def normalizeValue (value : ℚ) (config : SourceConfig) : ℚ :=
  let mn := config.inputRange.1
  let mx := config.inputRange.2
  let clamped := max mn (min mx value)
  let normalized0 := (clamped - mn) / (mx - mn)
  let normalized := if config.invert then 1 - normalized0 else normalized0
  (jsRound (normalized * 100) : ℚ)

/-- One iteration of the source loop in `calculateDimensionScores`: the
accumulator is the pair `(weightedSum, totalWeight)`; a source whose raw
value is absent, or whose id has no entry in `SOURCE_CONFIGS`, leaves the
accumulator unchanged. -/
def aggStep (sourceValues : String → Option ℚ) (acc : ℚ × ℚ) (source : DimSource) : ℚ × ℚ :=
  match sourceValues source.sourceId with
  | none => acc
  | some rawValue =>
    match SOURCE_CONFIGS.lookup source.sourceId with
    | none => acc
    | some config =>
      let normalized := normalizeValue rawValue config
      (acc.1 + normalized * source.weight, acc.2 + source.weight)

/-- The source loop of `calculateDimensionScores` for one dimension. -/
def aggregateList (sources : List DimSource) (sourceValues : String → Option ℚ) : ℚ × ℚ :=
  sources.foldl (aggStep sourceValues) (0, 0)

/-- `calculateDimensionScores` of `generate.ts`: one rounded weighted mean
per declared dimension, defaulting to `50` when no source had data. -/
def calculateDimensionScores (sourceValues : String → Option ℚ) : List (String × ℚ) :=
  DIMENSION_MAPPINGS.map (fun mapping =>
    let st := aggregateList mapping.sources sourceValues
    (mapping.dimension, if st.2 > 0 then (jsRound (st.1 / st.2) : ℚ) else 50))

/-- `calculateOverallScore` of `generate.ts`. -/
def calculateOverallScore (dimensions : List (String × ℚ)) : ℤ :=
  let st := dimensions.foldl (fun (acc : ℚ × ℚ) p =>
    let weight := (DIMENSION_WEIGHTS.lookup p.1).getD 0
    (acc.1 + p.2 * weight, acc.2 + weight)) (0, 0)
  if st.2 > 0 then jsRound (st.1 / st.2) else 0

end Gen

/-- A dimensions map carrying exactly the ten canonical dimension keys, in
the declaration order of `DIMENSION_SOURCES` (the iteration order of
`Object.entries` on the map built by `calculateCountry`). -/
def Calc.canonicalDims (d1 d2 d3 d4 d5 d6 d7 d8 d9 d10 : Wfs.DimensionScore) :
    List (String × Wfs.DimensionScore) :=
  [ ("democraticVoice", d1)
  , ("pressFreedom", d2)
  , ("justiceAccess", d3)
  , ("economicOpportunity", d4)
  , ("workplaceRights", d5)
  , ("healthcareAccess", d6)
  , ("housingSecurity", d7)
  , ("consumerProtection", d8)
  , ("governmentResponsiveness", d9)
  , ("socialInclusion", d10) ]

/-- A `generate.ts` dimensions map carrying exactly the ten canonical
dimension keys in declaration order. -/
def Gen.canonicalDims (s1 s2 s3 s4 s5 s6 s7 s8 s9 s10 : ℚ) : List (String × ℚ) :=
  [ ("democraticVoice", s1)
  , ("pressFreedom", s2)
  , ("justiceAccess", s3)
  , ("economicOpportunity", s4)
  , ("workplaceRights", s5)
  , ("healthcareAccess", s6)
  , ("housingSecurity", s7)
  , ("consumerProtection", s8)
  , ("governmentResponsiveness", s9)
  , ("socialInclusion", s10) ]

/-- A sample dimension outcome: score 60, empty audit trail, high
confidence. -/
def s60 : Wfs.DimensionScore :=
  { score := 60, sources := [], confidence := .high }

namespace Wfs

theorem le_jsRound {q : ℚ} {n : ℤ} (h : (n : ℚ) ≤ q) : n ≤ jsRound q := by
  unfold jsRound
  exact Int.le_floor.mpr (by linarith)

theorem jsRound_le {q : ℚ} {n : ℤ} (h : q ≤ (n : ℚ)) : jsRound q ≤ n := by
  unfold jsRound
  have : q + 1/2 < (n : ℚ) + 1 := by linarith
  have hlt := Int.floor_lt.mpr (by push_cast; linarith : q + 1/2 < ((n + 1 : ℤ) : ℚ))
  omega

/-- A fold step that fixes every state can be dropped from the middle of the
folded list. -/
theorem foldl_middle_id {α β : Type} (f : α → β → α) (s : β)
    (hs : ∀ st, f st s = st) (pre post : List β) (i : α) :
    (pre ++ s :: post).foldl f i = (pre ++ post).foldl f i := by
  simp [List.foldl_append, hs]

theorem foldl_add_eq (l : List ℚ) (a : ℚ) : l.foldl (· + ·) a = a + l.sum := by
  induction l generalizing a with
  | nil => simp
  | cons x t ih => simp only [List.foldl_cons, List.sum_cons, ih]; ring

end Wfs

open Wfs

namespace Calc

theorem weightSum_eq_sum (l : List (String × ℚ)) :
    weightSum l = (l.map Prod.snd).sum := by
  unfold weightSum
  rw [foldl_add_eq]
  ring

theorem weightSum_mutateWeight (l : List (String × ℚ)) (k : String) (w v : ℚ)
    (h : l.lookup k = some w) :
    weightSum (mutateWeight l k v) = weightSum l - w + v := by
  rw [weightSum_eq_sum, weightSum_eq_sum]
  induction l with
  | nil => simp [List.lookup] at h
  | cons p t ih =>
    obtain ⟨k0, w0⟩ := p
    by_cases hk : k0 = k
    · subst hk
      simp only [List.lookup, beq_self_eq_true] at h
      injection h with hw
      subst hw
      simp [mutateWeight]
      ring
    · have hne : (k == k0) = false := by
        simp [beq_eq_false_iff_ne]
        exact fun hkk => hk hkk.symm
      simp only [List.lookup, hne] at h
      simp [mutateWeight, hk, ih h]
      ring

/-- Folding `maxStep` over a list whose members are all either `e` itself or
have a strictly smaller year returns `e`, as long as the accumulator is
either already `e`, or is beatable by `e` (absent or of smaller year) with
`e` still to come. -/
theorem foldl_maxStep_eq (e : HistoricalScore) :
    ∀ (l : List HistoricalScore) (acc : Option HistoricalScore),
      (∀ f ∈ l, f = e ∨ f.year < e.year) →
      (acc = some e ∨
        ((acc = none ∨ ∃ b, acc = some b ∧ b.year < e.year) ∧ e ∈ l)) →
      l.foldl maxStep acc = some e := by
  intro l
  induction l with
  | nil =>
    intro acc _ hacc
    rcases hacc with h1 | ⟨_, hmem⟩
    · simpa using h1
    · simp at hmem
  | cons hd t ih =>
    intro acc hall hacc
    rw [List.foldl_cons]
    have hhd : hd = e ∨ hd.year < e.year := hall hd (by simp)
    have hall2 : ∀ f ∈ t, f = e ∨ f.year < e.year := fun f hf => hall f (by simp [hf])
    apply ih (maxStep acc hd) hall2
    rcases hacc with rfl | ⟨hb, hmem⟩
    · rcases hhd with rfl | hlt
      · left
        simp [maxStep]
      · left
        simp [maxStep, if_neg (by omega : ¬ e.year < hd.year)]
    · rcases hhd with rfl | hlt
      · rcases hb with rfl | ⟨b, rfl, hblt⟩
        · left
          simp [maxStep]
        · left
          simp [maxStep, if_pos hblt]
      · have hdne : hd ≠ e := by
          intro hcontr
          rw [hcontr] at hlt
          omega
        have hmem2 : e ∈ t := by
          rcases List.mem_cons.mp hmem with h1 | h1
          · exact absurd h1.symm hdne
          · exact h1
        right
        refine ⟨?_, hmem2⟩
        rcases hb with rfl | ⟨b, rfl, hblt⟩
        · right
          exact ⟨hd, by simp [maxStep], hlt⟩
        · right
          by_cases hcase : b.year < hd.year
          · exact ⟨hd, by simp [maxStep, if_pos hcase], hlt⟩
          · exact ⟨b, by simp [maxStep, if_neg hcase], hblt⟩

/-- `maxByYear?` returns the entry with the strictly greatest year. -/
theorem maxByYear?_eq_of_max (l : List HistoricalScore) (e : HistoricalScore)
    (he : e ∈ l) (hmax : ∀ f ∈ l, f = e ∨ f.year < e.year) :
    maxByYear? l = some e :=
  foldl_maxStep_eq e l none hmax (Or.inr ⟨Or.inl rfl, he⟩)

/-- Through the source loop, `estimatedCount` counts exactly the audit-trail
entries carrying the `estimated` flag. -/
theorem foldl_aggStep_estimatedCount (countryIso3 : String)
    (rawData : String → Option RawDataPoint) :
    ∀ (sources : List DimSource) (st : AggState),
      (sources.foldl (aggStep countryIso3 rawData) st).estimatedCount +
          (st.sourceScores.filter (fun s => s.estimated)).length =
        ((sources.foldl (aggStep countryIso3 rawData) st).sourceScores.filter
            (fun s => s.estimated)).length + st.estimatedCount := by
  intro sources
  induction sources with
  | nil =>
    intro st
    rw [List.foldl_nil]
    omega
  | cons s t ih =>
    intro st
    rw [List.foldl_cons]
    have key : (aggStep countryIso3 rawData st s).estimatedCount +
          (st.sourceScores.filter (fun x => x.estimated)).length =
        ((aggStep countryIso3 rawData st s).sourceScores.filter
            (fun x => x.estimated)).length + st.estimatedCount := by
      unfold aggStep
      cases rawData (sourceKey countryIso3 s.sourceId s.field) with
      | none =>
        dsimp only
        omega
      | some dp =>
        cases SOURCE_CONFIGS.lookup s.sourceId with
        | none =>
          dsimp only
          omega
        | some cfg =>
          simp only [List.filter_append, List.length_append]
          cases hest : dp.estimated <;> simp [hest] <;> omega
    have htail := ih (aggStep countryIso3 rawData st s)
    omega

theorem aggregateList_estimatedCount (sources : List DimSource)
    (countryIso3 : String) (rawData : String → Option RawDataPoint) :
    (aggregateList sources countryIso3 rawData).estimatedCount =
      ((aggregateList sources countryIso3 rawData).sourceScores.filter
          (fun s => s.estimated)).length := by
  have h := foldl_aggStep_estimatedCount countryIso3 rawData sources ⟨[], 0, 0, 0⟩
  simpa [aggregateList] using h

end Calc

namespace Wfs

theorem clampFraction_nonneg (mn mx v : ℚ) (h : mn < mx) :
    0 ≤ (max mn (min mx v) - mn) / (mx - mn) := by
  apply div_nonneg
  · have := le_max_left mn (min mx v)
    linarith
  · linarith

theorem clampFraction_le_one (mn mx v : ℚ) (h : mn < mx) :
    (max mn (min mx v) - mn) / (mx - mn) ≤ 1 := by
  rw [div_le_one (by linarith)]
  have h1 : min mx v ≤ mx := min_le_left mx v
  have h2 : max mn (min mx v) ≤ mx := max_le h.le h1
  linarith

theorem clampFraction_at_min (mn mx : ℚ) (h : mn < mx) :
    (max mn (min mx mn) - mn) / (mx - mn) = 0 := by
  rw [min_eq_right h.le, max_self, sub_self, zero_div]

theorem clampFraction_at_max (mn mx : ℚ) (h : mn < mx) :
    (max mn (min mx mx) - mn) / (mx - mn) = 1 := by
  rw [min_self, max_eq_right h.le, div_self (by linarith)]

end Wfs

namespace Wfs

/-- Bounds for the one-decimal scaling `Math.round(x * 100 * 10) / 10` of
`calculate.ts` when the fraction `x` lies in `[0, 1]`. -/
theorem jsScaled_div10_bounds (x : ℚ) (h0 : 0 ≤ x) (h1 : x ≤ 1) :
    0 ≤ (jsRound (x * 100 * 10) : ℚ) / 10 ∧ (jsRound (x * 100 * 10) : ℚ) / 10 ≤ 100 := by
  have hlo : (0 : ℤ) ≤ jsRound (x * 100 * 10) := le_jsRound (by push_cast; nlinarith)
  have hhi : jsRound (x * 100 * 10) ≤ 1000 := jsRound_le (by push_cast; nlinarith)
  have hlo2 : (0 : ℚ) ≤ (jsRound (x * 100 * 10) : ℚ) := by exact_mod_cast hlo
  have hhi2 : (jsRound (x * 100 * 10) : ℚ) ≤ 1000 := by exact_mod_cast hhi
  constructor
  · positivity
  · linarith

/-- Bounds for the whole-number scaling `Math.round(x * 100)` of
`generate.ts` when the fraction `x` lies in `[0, 1]`. -/
theorem jsScaled100_bounds (x : ℚ) (h0 : 0 ≤ x) (h1 : x ≤ 1) :
    0 ≤ (jsRound (x * 100) : ℚ) ∧ (jsRound (x * 100) : ℚ) ≤ 100 := by
  have hlo : (0 : ℤ) ≤ jsRound (x * 100) := le_jsRound (by push_cast; nlinarith)
  have hhi : jsRound (x * 100) ≤ 100 := jsRound_le (by push_cast; nlinarith)
  constructor
  · exact_mod_cast hlo
  · exact_mod_cast hhi

/-- Clamping is idempotent: the clamped value is already inside the range. -/
theorem clamp_idem (mn mx v : ℚ) (h : mn < mx) :
    max mn (min mx (max mn (min mx v))) = max mn (min mx v) := by
  have hle1 : mn ≤ max mn (min mx v) := le_max_left _ _
  have hle2 : max mn (min mx v) ≤ mx := max_le h.le (min_le_left _ _)
  rw [min_eq_right hle2, max_eq_right hle1]

end Wfs

/-- `normalizeValue` of `calculate.ts` with its `let` chain written out. -/
theorem Calc.normalizeValue_eq (v : ℚ) (cfg : Wfs.SourceConfig) :
    Calc.normalizeValue v cfg =
      (Wfs.jsRound ((if cfg.invert then
          1 - (max cfg.inputRange.1 (min cfg.inputRange.2 v) - cfg.inputRange.1) /
              (cfg.inputRange.2 - cfg.inputRange.1)
        else
          (max cfg.inputRange.1 (min cfg.inputRange.2 v) - cfg.inputRange.1) /
              (cfg.inputRange.2 - cfg.inputRange.1)) * 100 * 10) : ℚ) / 10 := rfl

/-- `normalizeValue` of `generate.ts` with its `let` chain written out. -/
theorem Gen.normalizeValue_expand (v : ℚ) (cfg : Wfs.SourceConfig) :
    Gen.normalizeValue v cfg =
      (Wfs.jsRound ((if cfg.invert then
          1 - (max cfg.inputRange.1 (min cfg.inputRange.2 v) - cfg.inputRange.1) /
              (cfg.inputRange.2 - cfg.inputRange.1)
        else
          (max cfg.inputRange.1 (min cfg.inputRange.2 v) - cfg.inputRange.1) /
              (cfg.inputRange.2 - cfg.inputRange.1)) * 100) : ℚ) := rfl

/-- A dimensions-map entry whose key is absent from `DIMENSION_WEIGHTS`
receives weight 0 and leaves the composite fold unchanged. -/
theorem Calc.calculateFairnessScore_append_unweighted
    (dims : List (String × Wfs.DimensionScore)) (k : String) (dx : Wfs.DimensionScore)
    (hk : Calc.DIMENSION_WEIGHTS.lookup k = none) :
    Calc.calculateFairnessScore (dims ++ [(k, dx)]) = Calc.calculateFairnessScore dims := by
  unfold Calc.calculateFairnessScore
  rw [List.foldl_append]
  simp [hk]

/-- Same for the `generate.ts` composite fold. -/
theorem Gen.calculateOverallScore_append_unweighted
    (dims : List (String × ℚ)) (k : String) (q : ℚ)
    (hk : Gen.DIMENSION_WEIGHTS.lookup k = none) :
    Gen.calculateOverallScore (dims ++ [(k, q)]) = Gen.calculateOverallScore dims := by
  unfold Gen.calculateOverallScore
  rw [List.foldl_append]
  simp [hk]

section Claims

open Wfs

/-- C1: the spec (and the repository README) state that a dimension with no
data point for any declared source scores exactly 50.  `generate.ts` does
default such a dimension to 50, but `calculate.ts` returns 0 in the very
same situation: evaluated on a raw-data map with no data points at all
(`totalWeight = 0`), `calculateDimensionScore` of `calculate.ts` yields
score 0 while `calculateDimensionScores` of `generate.ts` yields 50. -/
theorem C1_no_data_default_eval :
    (Calc.calculateDimensionScore "democraticVoice" (fun _ => none) "NOR").map
        Wfs.DimensionScore.score = Except.ok 0 ∧
    (Gen.calculateDimensionScores (fun _ => none)).lookup "democraticVoice" = some 50 := by
  constructor
  · rfl
  · rfl

/-- C2 counterexample: a source configuration whose range has `min = max`
(so `min >= max`) is NOT detected at startup: the whole pre-flight
validation of `calculate.ts` is the dimension-weight-sum check, which
passes unconditionally — it never inspects any source range — so the run
is not aborted, contrary to the claim. -/
theorem C2_counterexample :
    degenerateRange.inputRange.1 ≥ degenerateRange.inputRange.2 ∧
    degenerateRange.inputRange.2 - degenerateRange.inputRange.1 = 0 ∧
    Calc.startupValidationPasses = true := by
  refine ⟨le_refl _, ?_, ?_⟩
  · simp [degenerateRange]
  · have hsum : Calc.weightSum Calc.DIMENSION_WEIGHTS = 1 := by
      norm_num [Calc.weightSum, Calc.DIMENSION_WEIGHTS]
    unfold Calc.startupValidationPasses Calc.weightsValid
    rw [hsum]
    norm_num

/-- C2 (amended): `min >= max` is not guarded anywhere — the startup
validation consists solely of the dimension-weight-sum check (which
passes) and `normalizeValue` divides by `max - min` unconditionally; the
code instead relies on the static configuration invariant, which does
hold: every source range declared in the `SOURCE_CONFIGS` table of either
script satisfies `min < max`, so the zero-denominator division never
happens for the shipped configuration. -/
theorem C2_no_guard_but_valid_static_config :
    Calc.SOURCE_CONFIGS.all (fun p => decide (p.2.inputRange.1 < p.2.inputRange.2)) = true ∧
    Gen.SOURCE_CONFIGS.all (fun p => decide (p.2.inputRange.1 < p.2.inputRange.2)) = true ∧
    Calc.startupValidationPasses = true := by
  refine ⟨?_, ?_, ?_⟩
  · simp only [Calc.SOURCE_CONFIGS, List.all_cons, List.all_nil, Bool.and_eq_true,
      decide_eq_true_eq]
    norm_num
  · simp only [Gen.SOURCE_CONFIGS, List.all_cons, List.all_nil, Bool.and_eq_true,
      decide_eq_true_eq]
    norm_num
  · have hsum : Calc.weightSum Calc.DIMENSION_WEIGHTS = 1 := by
      norm_num [Calc.weightSum, Calc.DIMENSION_WEIGHTS]
    unfold Calc.startupValidationPasses Calc.weightsValid
    rw [hsum]
    norm_num

/-- C3: a declared source whose key has no raw data point is skipped
entirely — deleting it from the declared source list leaves the whole
aggregation state (weighted sum, weight denominator, audit trail,
estimated count) unchanged — and, concretely, the `healthcareAccess`
dimension (sources `who_uhc` weight 0.6 and `who_out_of_pocket` weight
0.4) scores exactly 80, not 48, when only `who_uhc` has data normalizing
to 80. -/
theorem C3_missing_source_skipped (pre post : List Wfs.DimSource) (s : Wfs.DimSource)
    (rawData : String → Option Wfs.RawDataPoint) (countryIso3 : String)
    (habs : rawData (Calc.sourceKey countryIso3 s.sourceId s.field) = none) :
    Calc.aggregateList (pre ++ s :: post) countryIso3 rawData =
      Calc.aggregateList (pre ++ post) countryIso3 rawData ∧
    (Calc.calculateDimensionScore "healthcareAccess"
        (fun k => if k = "NOR_who_uhc"
          then some { value := 80, year := 2024, estimated := false }
          else none)
        "NOR").map Wfs.DimensionScore.score = Except.ok 80 := by
  constructor
  · unfold Calc.aggregateList
    apply foldl_middle_id
    intro st
    unfold Calc.aggStep
    rw [habs]
  · have hf : Calc.DIMENSION_SOURCES.find? (fun d => d.dimension == "healthcareAccess") =
        some { dimension := "healthcareAccess"
             , sources := [ { sourceId := "who_uhc", weight := 0.6 }
                          , { sourceId := "who_out_of_pocket", weight := 0.4 } ] } := by
      simp [Calc.DIMENSION_SOURCES, List.find?]
    rw [Calc.calculateDimensionScore, hf]
    have hnorm : Calc.normalizeValue 80 { inputRange := (0, 100), invert := false } = 80 := by
      norm_num [Calc.normalizeValue, Wfs.jsRound, min_def, max_def]
    simp [Calc.aggregateList, List.foldl_cons, List.foldl_nil, Calc.aggStep,
      Calc.sourceKey, Calc.SOURCE_CONFIGS, List.lookup, hnorm,
      Calc.mkDimensionScore, Calc.confidenceOf, Except.map]
    norm_num [Wfs.jsRound]

/-- C3 witness: the claim's own scenario — the `healthcareAccess` source
list with `who_out_of_pocket` (weight 0.4) lacking data — instantiates the
theorem. -/
theorem C3_missing_source_skipped_witness :
    ((fun k => if k = "NOR_who_uhc"
        then some { value := 80, year := 2024, estimated := false : Wfs.RawDataPoint }
        else none) (Calc.sourceKey "NOR" "who_out_of_pocket" none) = none) ∧
    (Calc.aggregateList
        [{ sourceId := "who_uhc", weight := 0.6 },
         { sourceId := "who_out_of_pocket", weight := 0.4 }] "NOR"
        (fun k => if k = "NOR_who_uhc"
          then some { value := 80, year := 2024, estimated := false }
          else none) =
      Calc.aggregateList [{ sourceId := "who_uhc", weight := 0.6 }] "NOR"
        (fun k => if k = "NOR_who_uhc"
          then some { value := 80, year := 2024, estimated := false }
          else none) ∧
    (Calc.calculateDimensionScore "healthcareAccess"
        (fun k => if k = "NOR_who_uhc"
          then some { value := 80, year := 2024, estimated := false }
          else none)
        "NOR").map Wfs.DimensionScore.score = Except.ok 80) :=
  ⟨by decide,
   C3_missing_source_skipped [{ sourceId := "who_uhc", weight := 0.6 }] []
     { sourceId := "who_out_of_pocket", weight := 0.4 }
     (fun k => if k = "NOR_who_uhc"
       then some { value := 80, year := 2024, estimated := false }
       else none)
     "NOR" (by decide)⟩

/-- C9: requesting aggregation for a dimension name with no entry in the
dimension-to-source mapping makes `calculateDimensionScore` throw
(`Unknown dimension: ...`) instead of returning a score. -/
theorem C9_unknown_dimension (dimension : String)
    (rawData : String → Option Wfs.RawDataPoint) (countryIso3 : String)
    (h : Calc.DIMENSION_SOURCES.find? (fun d => d.dimension == dimension) = none) :
    Calc.calculateDimensionScore dimension rawData countryIso3 =
      Except.error ("Unknown dimension: " ++ dimension) := by
  unfold Calc.calculateDimensionScore
  rw [h]

/-- C9 witness: `humanDignity` is not a declared dimension, and the
aggregator errors out on it. -/
theorem C9_unknown_dimension_witness :
    Calc.DIMENSION_SOURCES.find? (fun d => d.dimension == "humanDignity") = none ∧
    Calc.calculateDimensionScore "humanDignity" (fun _ => none) "NOR" =
      Except.error ("Unknown dimension: humanDignity") :=
  ⟨by decide, C9_unknown_dimension "humanDignity" (fun _ => none) "NOR" (by decide)⟩

/-- C10: a declared source whose id has no entry in `SOURCE_CONFIGS` is
silently skipped even when its raw data point is present: deleting it from
the declared source list changes nothing in the aggregation state of
either script's aggregator (weighted sum, weight denominator, audit trail,
estimated count), and no error is raised (the aggregation is total). -/
theorem C10_unconfigured_source_skipped
    (pre post : List Wfs.DimSource) (s : Wfs.DimSource)
    (rawData : String → Option Wfs.RawDataPoint) (countryIso3 : String)
    (gpre gpost : List Gen.DimSource) (g : Gen.DimSource)
    (sourceValues : String → Option ℚ)
    (hcfg : Calc.SOURCE_CONFIGS.lookup s.sourceId = none)
    (hgcfg : Gen.SOURCE_CONFIGS.lookup g.sourceId = none) :
    Calc.aggregateList (pre ++ s :: post) countryIso3 rawData =
      Calc.aggregateList (pre ++ post) countryIso3 rawData ∧
    Gen.aggregateList (gpre ++ g :: gpost) sourceValues =
      Gen.aggregateList (gpre ++ gpost) sourceValues := by
  constructor
  · unfold Calc.aggregateList
    apply foldl_middle_id
    intro st
    unfold Calc.aggStep
    cases rawData (Calc.sourceKey countryIso3 s.sourceId s.field) with
    | none => rfl
    | some dp => rw [hcfg]
  · unfold Gen.aggregateList
    apply foldl_middle_id
    intro st
    unfold Gen.aggStep
    cases sourceValues g.sourceId with
    | none => rfl
    | some rv => rw [hgcfg]

/-- C10 witness: a source id absent from both configuration tables, with a
raw data point present for every key, is skipped by both aggregators. -/
theorem C10_unconfigured_source_skipped_witness :
    Calc.SOURCE_CONFIGS.lookup "mystery_index" = none ∧
    Gen.SOURCE_CONFIGS.lookup "mystery_index" = none ∧
    (Calc.aggregateList
        [{ sourceId := "who_uhc", weight := 0.6 },
         { sourceId := "mystery_index", weight := 0.4 }] "NOR"
        (fun _ => some { value := 80, year := 2024, estimated := false }) =
      Calc.aggregateList [{ sourceId := "who_uhc", weight := 0.6 }] "NOR"
        (fun _ => some { value := 80, year := 2024, estimated := false }) ∧
    Gen.aggregateList
        [{ sourceId := "mystery_index", weight := 0.4 }]
        (fun _ => some 80) =
      Gen.aggregateList [] (fun _ => some 80)) :=
  ⟨by decide, by decide,
   C10_unconfigured_source_skipped
     [{ sourceId := "who_uhc", weight := 0.6 }] []
     { sourceId := "mystery_index", weight := 0.4 }
     (fun _ => some { value := 80, year := 2024, estimated := false }) "NOR"
     [] [] { sourceId := "mystery_index", weight := 0.4 }
     (fun _ => some 80) (by decide) (by decide)⟩

/-- C4: for any input value and any configuration with `min < max`, both
scripts' normalizers return a value in `[0, 100]`; the range endpoints map
to `0`/`100` (`100`/`0` when inverted); and out-of-range input is first
clamped into `[min, max]` — normalizing any value equals normalizing its
clamped image, so nothing is ever rejected. -/
theorem C4_normalize_range (v : ℚ) (cfg : Wfs.SourceConfig)
    (h : cfg.inputRange.1 < cfg.inputRange.2) :
    (0 ≤ Calc.normalizeValue v cfg ∧ Calc.normalizeValue v cfg ≤ 100) ∧
    (0 ≤ Gen.normalizeValue v cfg ∧ Gen.normalizeValue v cfg ≤ 100) ∧
    (cfg.invert = false →
      Calc.normalizeValue cfg.inputRange.1 cfg = 0 ∧
      Calc.normalizeValue cfg.inputRange.2 cfg = 100 ∧
      Gen.normalizeValue cfg.inputRange.1 cfg = 0 ∧
      Gen.normalizeValue cfg.inputRange.2 cfg = 100) ∧
    (cfg.invert = true →
      Calc.normalizeValue cfg.inputRange.1 cfg = 100 ∧
      Calc.normalizeValue cfg.inputRange.2 cfg = 0 ∧
      Gen.normalizeValue cfg.inputRange.1 cfg = 100 ∧
      Gen.normalizeValue cfg.inputRange.2 cfg = 0) ∧
    (Calc.normalizeValue v cfg =
       Calc.normalizeValue (max cfg.inputRange.1 (min cfg.inputRange.2 v)) cfg ∧
     Gen.normalizeValue v cfg =
       Gen.normalizeValue (max cfg.inputRange.1 (min cfg.inputRange.2 v)) cfg) := by
  have ht0 := clampFraction_nonneg cfg.inputRange.1 cfg.inputRange.2 v h
  have ht1 := clampFraction_le_one cfg.inputRange.1 cfg.inputRange.2 v h
  refine ⟨?_, ?_, ?_, ?_, ?_⟩
  · rw [Calc.normalizeValue_eq]
    cases hinv : cfg.invert
    · rw [if_neg (by simp)]
      exact jsScaled_div10_bounds _ ht0 ht1
    · rw [if_pos rfl]
      exact jsScaled_div10_bounds _ (by linarith) (by linarith)
  · rw [Gen.normalizeValue_expand]
    cases hinv : cfg.invert
    · rw [if_neg (by simp)]
      exact jsScaled100_bounds _ ht0 ht1
    · rw [if_pos rfl]
      exact jsScaled100_bounds _ (by linarith) (by linarith)
  · intro hinv
    refine ⟨?_, ?_, ?_, ?_⟩
    · rw [Calc.normalizeValue_eq, hinv, if_neg (by simp),
        clampFraction_at_min _ _ h]
      norm_num [jsRound]
    · rw [Calc.normalizeValue_eq, hinv, if_neg (by simp),
        clampFraction_at_max _ _ h]
      norm_num [jsRound]
    · rw [Gen.normalizeValue_expand, hinv, if_neg (by simp),
        clampFraction_at_min _ _ h]
      norm_num [jsRound]
    · rw [Gen.normalizeValue_expand, hinv, if_neg (by simp),
        clampFraction_at_max _ _ h]
      norm_num [jsRound]
  · intro hinv
    refine ⟨?_, ?_, ?_, ?_⟩
    · rw [Calc.normalizeValue_eq, hinv, if_pos rfl,
        clampFraction_at_min _ _ h]
      norm_num [jsRound]
    · rw [Calc.normalizeValue_eq, hinv, if_pos rfl,
        clampFraction_at_max _ _ h]
      norm_num [jsRound]
    · rw [Gen.normalizeValue_expand, hinv, if_pos rfl,
        clampFraction_at_min _ _ h]
      norm_num [jsRound]
    · rw [Gen.normalizeValue_expand, hinv, if_pos rfl,
        clampFraction_at_max _ _ h]
      norm_num [jsRound]
  · constructor
    · rw [Calc.normalizeValue_eq, Calc.normalizeValue_eq, clamp_idem _ _ _ h]
    · rw [Gen.normalizeValue_expand, Gen.normalizeValue_expand, clamp_idem _ _ _ h]

/-- C4 witness: the RSF press-freedom configuration (`[0, 100]`, inverted)
at the out-of-range input 150. -/
theorem C4_normalize_range_witness :
    (({ inputRange := (0, 100), invert := true } : Wfs.SourceConfig).inputRange.1 <
        ({ inputRange := (0, 100), invert := true } : Wfs.SourceConfig).inputRange.2) ∧
    ((0 ≤ Calc.normalizeValue 150 { inputRange := (0, 100), invert := true } ∧
        Calc.normalizeValue 150 { inputRange := (0, 100), invert := true } ≤ 100) ∧
     (0 ≤ Gen.normalizeValue 150 { inputRange := (0, 100), invert := true } ∧
        Gen.normalizeValue 150 { inputRange := (0, 100), invert := true } ≤ 100) ∧
     (({ inputRange := (0, 100), invert := true } : Wfs.SourceConfig).invert = false →
       Calc.normalizeValue ({ inputRange := (0, 100), invert := true } : Wfs.SourceConfig).inputRange.1
           { inputRange := (0, 100), invert := true } = 0 ∧
       Calc.normalizeValue ({ inputRange := (0, 100), invert := true } : Wfs.SourceConfig).inputRange.2
           { inputRange := (0, 100), invert := true } = 100 ∧
       Gen.normalizeValue ({ inputRange := (0, 100), invert := true } : Wfs.SourceConfig).inputRange.1
           { inputRange := (0, 100), invert := true } = 0 ∧
       Gen.normalizeValue ({ inputRange := (0, 100), invert := true } : Wfs.SourceConfig).inputRange.2
           { inputRange := (0, 100), invert := true } = 100) ∧
     (({ inputRange := (0, 100), invert := true } : Wfs.SourceConfig).invert = true →
       Calc.normalizeValue ({ inputRange := (0, 100), invert := true } : Wfs.SourceConfig).inputRange.1
           { inputRange := (0, 100), invert := true } = 100 ∧
       Calc.normalizeValue ({ inputRange := (0, 100), invert := true } : Wfs.SourceConfig).inputRange.2
           { inputRange := (0, 100), invert := true } = 0 ∧
       Gen.normalizeValue ({ inputRange := (0, 100), invert := true } : Wfs.SourceConfig).inputRange.1
           { inputRange := (0, 100), invert := true } = 100 ∧
       Gen.normalizeValue ({ inputRange := (0, 100), invert := true } : Wfs.SourceConfig).inputRange.2
           { inputRange := (0, 100), invert := true } = 0) ∧
     (Calc.normalizeValue 150 { inputRange := (0, 100), invert := true } =
        Calc.normalizeValue
          (max ({ inputRange := (0, 100), invert := true } : Wfs.SourceConfig).inputRange.1
            (min ({ inputRange := (0, 100), invert := true } : Wfs.SourceConfig).inputRange.2 150))
          { inputRange := (0, 100), invert := true } ∧
      Gen.normalizeValue 150 { inputRange := (0, 100), invert := true } =
        Gen.normalizeValue
          (max ({ inputRange := (0, 100), invert := true } : Wfs.SourceConfig).inputRange.1
            (min ({ inputRange := (0, 100), invert := true } : Wfs.SourceConfig).inputRange.2 150))
          { inputRange := (0, 100), invert := true })) :=
  ⟨by norm_num,
   C4_normalize_range 150 { inputRange := (0, 100), invert := true } (by norm_num)⟩

/-- C5: the trend estimator selects the single entry with the greatest year
at most `currentYear - 5`; when no entry qualifies (in particular on an
empty list) it returns `{stable, 0, 0}`; otherwise the change is
`round(currentScore - selected.score)` clamped into `[-15, 15]`, the
direction is `improving` iff the capped change is `>= 3` and `declining`
iff it is `<= -3`, and `yearsCompared` is `currentYear` minus the selected
entry's year. -/
theorem C5_trend_characterization (currentYear : ℤ) (currentScore : ℚ)
    (hist : List Wfs.HistoricalScore) :
    ((∀ f ∈ hist, ¬ f.year ≤ currentYear - 5) →
      Calc.calculateTrend currentYear currentScore hist =
        { direction := .stable, change := 0, yearsCompared := 0 }) ∧
    (∀ e ∈ hist, e.year ≤ currentYear - 5 →
      (∀ f ∈ hist, f.year ≤ currentYear - 5 → f ≠ e → f.year < e.year) →
      Calc.calculateTrend currentYear currentScore hist =
        { direction :=
            if max (-15) (min 15 (jsRound (currentScore - e.score))) ≥ 3 then .improving
            else if max (-15) (min 15 (jsRound (currentScore - e.score))) ≤ -3 then .declining
            else .stable
        , change := max (-15) (min 15 (jsRound (currentScore - e.score)))
        , yearsCompared := currentYear - e.year }) := by
  constructor
  · intro hnone
    have hfil : hist.filter (fun h => decide (h.year ≤ currentYear - 5)) = [] := by
      rw [List.filter_eq_nil_iff]
      intro a ha
      simpa using hnone a ha
    simp only [Calc.calculateTrend]
    rw [hfil]
    rfl
  · intro e he hle hmax
    have hmem : e ∈ hist.filter (fun h => decide (h.year ≤ currentYear - 5)) := by
      rw [List.mem_filter]
      exact ⟨he, by simpa using hle⟩
    have hall : ∀ f ∈ hist.filter (fun h => decide (h.year ≤ currentYear - 5)),
        f = e ∨ f.year < e.year := by
      intro f hf
      rw [List.mem_filter] at hf
      by_cases hfe : f = e
      · exact Or.inl hfe
      · exact Or.inr (hmax f hf.1 (by simpa using hf.2) hfe)
    have hsel := Calc.maxByYear?_eq_of_max _ e hmem hall
    simp only [Calc.calculateTrend]
    rw [hsel]

/-- C5 witness: current score 90 in 2025 against history
`[(2018, 50), (2023, 80)]` — only 2018 is at or before the target year
2020, the raw change 40 is capped to +15, and 7 years are compared. -/
theorem C5_trend_characterization_witness :
    ((⟨2018, 50⟩ : Wfs.HistoricalScore) ∈
        ([⟨2018, 50⟩, ⟨2023, 80⟩] : List Wfs.HistoricalScore)) ∧
    ((2018 : ℤ) ≤ 2025 - 5) ∧
    Calc.calculateTrend 2025 90 [⟨2018, 50⟩, ⟨2023, 80⟩] =
      { direction := .improving, change := 15, yearsCompared := 7 } := by
  have hmax : ∀ f ∈ ([⟨2018, 50⟩, ⟨2023, 80⟩] : List Wfs.HistoricalScore),
      f.year ≤ 2025 - 5 → f ≠ ⟨2018, 50⟩ → f.year < (⟨2018, 50⟩ : Wfs.HistoricalScore).year := by
    intro f hf h1 h2
    rcases List.mem_cons.mp hf with rfl | hf2
    · exact absurd rfl h2
    · rcases List.mem_cons.mp hf2 with rfl | hf3
      · norm_num at h1
      · simp at hf3
  have h := (C5_trend_characterization 2025 90 [⟨2018, 50⟩, ⟨2023, 80⟩]).2
    ⟨2018, 50⟩ (by simp) (by norm_num) hmax
  refine ⟨by simp, by norm_num, ?_⟩
  rw [h]
  norm_num [Wfs.jsRound, min_def, max_def]

/-- C6: dimension confidence, computed by `calculateDimensionScore` after
the aggregation loop, is a cascade: `low` iff `totalWeight < 0.5` or
strictly more than half of the contributing audit-trail sources are
flagged estimated (the accumulated `estimatedCount` is exactly that
count); otherwise `medium` iff `totalWeight < 0.8` or at least one
contributing source is estimated; otherwise `high`. -/
theorem C6_confidence_cascade (mapping : Wfs.DimensionSourceMapping)
    (countryIso3 : String) (rawData : String → Option Wfs.RawDataPoint)
    (st : Calc.AggState)
    (hst : Calc.aggregateList mapping.sources countryIso3 rawData = st) :
    st.estimatedCount = (st.sourceScores.filter (fun s => s.estimated)).length ∧
    ((Calc.mkDimensionScore st).confidence = .low ↔
      st.totalWeight < 0.5 ∨
        ((st.estimatedCount : ℚ) > (st.sourceScores.length : ℚ) / 2)) ∧
    ((Calc.mkDimensionScore st).confidence = .medium ↔
      (¬(st.totalWeight < 0.5 ∨
          (st.estimatedCount : ℚ) > (st.sourceScores.length : ℚ) / 2) ∧
        (st.totalWeight < 0.8 ∨ 0 < st.estimatedCount))) ∧
    ((Calc.mkDimensionScore st).confidence = .high ↔
      (¬(st.totalWeight < 0.5 ∨
          (st.estimatedCount : ℚ) > (st.sourceScores.length : ℚ) / 2) ∧
        ¬(st.totalWeight < 0.8 ∨ 0 < st.estimatedCount))) := by
  have hconf : (Calc.mkDimensionScore st).confidence =
      Calc.confidenceOf st.totalWeight st.estimatedCount st.sourceScores.length := rfl
  refine ⟨?_, ?_, ?_, ?_⟩
  · rw [← hst]
    exact Calc.aggregateList_estimatedCount _ _ _
  all_goals
    rw [hconf]
    unfold Calc.confidenceOf
    by_cases h1 : st.totalWeight < 0.5 ∨
        (st.estimatedCount : ℚ) > (st.sourceScores.length : ℚ) / 2
  · simp [h1]
  · by_cases h2 : st.totalWeight < 0.8 ∨ 0 < st.estimatedCount
    · simp [h1, h2]
    · simp [h1, h2]
  · simp [h1]
  · by_cases h2 : st.totalWeight < 0.8 ∨ 0 < st.estimatedCount
    · simp [h1, h2]
    · simp [h1, h2]
  · simp [h1]
  · by_cases h2 : st.totalWeight < 0.8 ∨ 0 < st.estimatedCount
    · simp [h1, h2]
    · simp [h1, h2]

/-- C6 witness: `healthcareAccess` with only `who_uhc` contributing and its
data point flagged estimated — `totalWeight = 0.6` and the lone
contributing source estimated, so the grade is `low` (1 > 1/2). -/
theorem C6_confidence_cascade_witness :
    (Calc.aggregateList
        [ { sourceId := "who_uhc", weight := 0.6 }
        , { sourceId := "who_out_of_pocket", weight := 0.4 } ] "NOR"
        (fun k => if k = "NOR_who_uhc"
          then some { value := 80, year := 2024, estimated := true }
          else none) =
      { sourceScores := [ { sourceId := "who_uhc", rawValue := 80
                          , normalizedValue := 80, weight := 0.6, estimated := true } ]
      , totalWeight := 0.6, weightedSum := 48, estimatedCount := 1 }) ∧
    ((1 : ℕ) = ((([ { sourceId := "who_uhc", rawValue := 80
                    , normalizedValue := 80, weight := 0.6, estimated := true } ] :
          List Wfs.SourceEntry).filter (fun s => s.estimated)).length) ∧
     (Calc.mkDimensionScore
        { sourceScores := [ { sourceId := "who_uhc", rawValue := 80
                            , normalizedValue := 80, weight := 0.6, estimated := true } ]
        , totalWeight := 0.6, weightedSum := 48, estimatedCount := 1 }).confidence =
       Wfs.Confidence.low) := by
  have hnorm : Calc.normalizeValue 80 { inputRange := (0, 100), invert := false } = 80 := by
    norm_num [Calc.normalizeValue, Wfs.jsRound, min_def, max_def]
  have hst : Calc.aggregateList
      [ { sourceId := "who_uhc", weight := 0.6 }
      , { sourceId := "who_out_of_pocket", weight := 0.4 } ] "NOR"
      (fun k => if k = "NOR_who_uhc"
        then some { value := 80, year := 2024, estimated := true }
        else none) =
      { sourceScores := [ { sourceId := "who_uhc", rawValue := 80
                          , normalizedValue := 80, weight := 0.6, estimated := true } ]
      , totalWeight := 0.6, weightedSum := 48, estimatedCount := 1 } := by
    simp [Calc.aggregateList, Calc.aggStep, Calc.sourceKey, Calc.SOURCE_CONFIGS,
      List.lookup, hnorm]
    norm_num
  have h := C6_confidence_cascade
    { dimension := "healthcareAccess"
    , sources := [ { sourceId := "who_uhc", weight := 0.6 }
                 , { sourceId := "who_out_of_pocket", weight := 0.4 } ] }
    "NOR"
    (fun k => if k = "NOR_who_uhc"
      then some { value := 80, year := 2024, estimated := true }
      else none)
    _ hst
  refine ⟨hst, ?_, ?_⟩
  · exact h.1
  · rw [h.2.1]
    norm_num

/-- C7: on a dimensions map holding the ten canonical keys with scores in
`[0, 100]`, both composite scorers return the integer rounding of
`Σ(score × weight)` — the weight denominator accumulates to exactly 1.0
for the canonical keys, so no division reshapes the mean — the result lies
in `[0, 100]`, and appending an entry whose key is absent from the weight
table leaves the composite unchanged (zero weight, ignored). -/
theorem C7_composite_score
    (d1 d2 d3 d4 d5 d6 d7 d8 d9 d10 : Wfs.DimensionScore)
    (k : String) (dx : Wfs.DimensionScore) (q : ℚ)
    (hb : (0 ≤ d1.score ∧ d1.score ≤ 100) ∧ (0 ≤ d2.score ∧ d2.score ≤ 100) ∧
      (0 ≤ d3.score ∧ d3.score ≤ 100) ∧ (0 ≤ d4.score ∧ d4.score ≤ 100) ∧
      (0 ≤ d5.score ∧ d5.score ≤ 100) ∧ (0 ≤ d6.score ∧ d6.score ≤ 100) ∧
      (0 ≤ d7.score ∧ d7.score ≤ 100) ∧ (0 ≤ d8.score ∧ d8.score ≤ 100) ∧
      (0 ≤ d9.score ∧ d9.score ≤ 100) ∧ (0 ≤ d10.score ∧ d10.score ≤ 100))
    (hk : Calc.DIMENSION_WEIGHTS.lookup k = none)
    (hgk : Gen.DIMENSION_WEIGHTS.lookup k = none) :
    Calc.calculateFairnessScore (Calc.canonicalDims d1 d2 d3 d4 d5 d6 d7 d8 d9 d10) =
      jsRound (d1.score * 0.15 + d2.score * 0.15 + d3.score * 0.15 + d4.score * 0.10 +
        d5.score * 0.10 + d6.score * 0.10 + d7.score * 0.10 + d8.score * 0.05 +
        d9.score * 0.05 + d10.score * 0.05) ∧
    0 ≤ Calc.calculateFairnessScore (Calc.canonicalDims d1 d2 d3 d4 d5 d6 d7 d8 d9 d10) ∧
    Calc.calculateFairnessScore (Calc.canonicalDims d1 d2 d3 d4 d5 d6 d7 d8 d9 d10) ≤ 100 ∧
    Calc.calculateFairnessScore
        (Calc.canonicalDims d1 d2 d3 d4 d5 d6 d7 d8 d9 d10 ++ [(k, dx)]) =
      Calc.calculateFairnessScore (Calc.canonicalDims d1 d2 d3 d4 d5 d6 d7 d8 d9 d10) ∧
    Gen.calculateOverallScore
        (Gen.canonicalDims d1.score d2.score d3.score d4.score d5.score d6.score
          d7.score d8.score d9.score d10.score) =
      jsRound (d1.score * 0.15 + d2.score * 0.15 + d3.score * 0.15 + d4.score * 0.10 +
        d5.score * 0.10 + d6.score * 0.10 + d7.score * 0.10 + d8.score * 0.05 +
        d9.score * 0.05 + d10.score * 0.05) ∧
    Gen.calculateOverallScore
        (Gen.canonicalDims d1.score d2.score d3.score d4.score d5.score d6.score
          d7.score d8.score d9.score d10.score ++ [(k, q)]) =
      Gen.calculateOverallScore
        (Gen.canonicalDims d1.score d2.score d3.score d4.score d5.score d6.score
          d7.score d8.score d9.score d10.score) := by
  have heq : Calc.calculateFairnessScore
      (Calc.canonicalDims d1 d2 d3 d4 d5 d6 d7 d8 d9 d10) =
      jsRound (d1.score * 0.15 + d2.score * 0.15 + d3.score * 0.15 + d4.score * 0.10 +
        d5.score * 0.10 + d6.score * 0.10 + d7.score * 0.10 + d8.score * 0.05 +
        d9.score * 0.05 + d10.score * 0.05) := by
    unfold Calc.calculateFairnessScore Calc.canonicalDims
    simp [List.foldl_cons, List.foldl_nil, Calc.DIMENSION_WEIGHTS, List.lookup]
    norm_num
  have hgeq : Gen.calculateOverallScore
      (Gen.canonicalDims d1.score d2.score d3.score d4.score d5.score d6.score
        d7.score d8.score d9.score d10.score) =
      jsRound (d1.score * 0.15 + d2.score * 0.15 + d3.score * 0.15 + d4.score * 0.10 +
        d5.score * 0.10 + d6.score * 0.10 + d7.score * 0.10 + d8.score * 0.05 +
        d9.score * 0.05 + d10.score * 0.05) := by
    unfold Gen.calculateOverallScore Gen.canonicalDims
    simp [List.foldl_cons, List.foldl_nil, Gen.DIMENSION_WEIGHTS, List.lookup]
    norm_num
  obtain ⟨⟨h1a, h1b⟩, ⟨h2a, h2b⟩, ⟨h3a, h3b⟩, ⟨h4a, h4b⟩, ⟨h5a, h5b⟩,
    ⟨h6a, h6b⟩, ⟨h7a, h7b⟩, ⟨h8a, h8b⟩, ⟨h9a, h9b⟩, ⟨h10a, h10b⟩⟩ := hb
  refine ⟨heq, ?_, ?_,
    Calc.calculateFairnessScore_append_unweighted _ _ _ hk, hgeq,
    Gen.calculateOverallScore_append_unweighted _ _ _ hgk⟩
  · rw [heq]
    exact le_jsRound (by push_cast; linarith)
  · rw [heq]
    exact jsRound_le (by push_cast; linarith)

/-- C7 witness: all ten canonical dimensions at score 60, plus an entry
under the unknown key `bogusDimension`; the composite is
`round(60 × 1.0) = 60` and the extra entry is ignored. -/
theorem C7_composite_score_witness :
    ((0 : ℚ) ≤ 60 ∧ (60 : ℚ) ≤ 100) ∧
    Calc.DIMENSION_WEIGHTS.lookup "bogusDimension" = none ∧
    Gen.DIMENSION_WEIGHTS.lookup "bogusDimension" = none ∧
    Calc.calculateFairnessScore
        (Calc.canonicalDims s60 s60 s60 s60 s60 s60 s60 s60 s60 s60) = 60 ∧
    Calc.calculateFairnessScore
        (Calc.canonicalDims s60 s60 s60 s60 s60 s60 s60 s60 s60 s60 ++
          [("bogusDimension", s60)]) =
      Calc.calculateFairnessScore
        (Calc.canonicalDims s60 s60 s60 s60 s60 s60 s60 s60 s60 s60) ∧
    Gen.calculateOverallScore
        (Gen.canonicalDims 60 60 60 60 60 60 60 60 60 60 ++ [("bogusDimension", 0)]) =
      Gen.calculateOverallScore (Gen.canonicalDims 60 60 60 60 60 60 60 60 60 60) := by
  have hb : (0 ≤ s60.score ∧ s60.score ≤ 100) ∧ (0 ≤ s60.score ∧ s60.score ≤ 100) ∧
      (0 ≤ s60.score ∧ s60.score ≤ 100) ∧ (0 ≤ s60.score ∧ s60.score ≤ 100) ∧
      (0 ≤ s60.score ∧ s60.score ≤ 100) ∧ (0 ≤ s60.score ∧ s60.score ≤ 100) ∧
      (0 ≤ s60.score ∧ s60.score ≤ 100) ∧ (0 ≤ s60.score ∧ s60.score ≤ 100) ∧
      (0 ≤ s60.score ∧ s60.score ≤ 100) ∧ (0 ≤ s60.score ∧ s60.score ≤ 100) := by
    norm_num [s60]
  have h := C7_composite_score s60 s60 s60 s60 s60 s60 s60 s60 s60 s60
    "bogusDimension" s60 0 hb (by rfl) (by rfl)
  refine ⟨by norm_num, by rfl, by rfl, ?_, h.2.2.2.1, ?_⟩
  · rw [h.1]
    norm_num [s60, Wfs.jsRound]
  · have hg := h.2.2.2.2.2
    simpa [s60] using hg

/-- C8: mutating any one canonical dimension weight so that the sum of the
ten weights deviates from 1.0 by more than 0.001 makes the startup weight
validation of `main` fail (the run aborts before any country is scored);
with the declared weights the sum is exactly 1 and validation passes. -/
theorem C8_weight_sum_validation (k : String) (w v : ℚ)
    (hk : Calc.DIMENSION_WEIGHTS.lookup k = some w)
    (hdev : |v - w| > 0.001) :
    Calc.weightsValid (Calc.mutateWeight Calc.DIMENSION_WEIGHTS k v) = false ∧
    Calc.weightsValid Calc.DIMENSION_WEIGHTS = true := by
  have horig : Calc.weightSum Calc.DIMENSION_WEIGHTS = 1 := by
    norm_num [Calc.weightSum, Calc.DIMENSION_WEIGHTS]
  constructor
  · have hsum := Calc.weightSum_mutateWeight Calc.DIMENSION_WEIGHTS k w v hk
    unfold Calc.weightsValid
    rw [hsum, horig]
    simp only [decide_eq_false_iff_not, not_le]
    have harith : (1 : ℚ) - w + v - 1 = v - w := by ring
    rw [harith]
    exact hdev
  · unfold Calc.weightsValid
    rw [horig]
    norm_num

/-- C8 witness: doubling the `socialInclusion` weight from 0.05 to 0.10
(deviation 0.05 > 0.001) makes validation fail; the declared table
passes. -/
theorem C8_weight_sum_validation_witness :
    Calc.DIMENSION_WEIGHTS.lookup "socialInclusion" = some 0.05 ∧
    |(0.10 : ℚ) - 0.05| > 0.001 ∧
    (Calc.weightsValid (Calc.mutateWeight Calc.DIMENSION_WEIGHTS "socialInclusion" 0.10) =
        false ∧
      Calc.weightsValid Calc.DIMENSION_WEIGHTS = true) :=
  ⟨by rfl, by norm_num [abs_of_pos],
   C8_weight_sum_validation "socialInclusion" 0.05 0.10 (by rfl) (by norm_num [abs_of_pos])⟩

end Claims
